import Mathlib

/-!
# dddparser command-line shim (cmd/dddparser/main.go)

A shallow embedding of the command-line entry point of the tachograph parser.
The program is I/O glue around two decoders and a JSON serializer, so the
embedding is an explicit state-passing one: every function threads a world
state `W` and records the effects it performs, in order, as a list of `Event`s.
A call of `log.Fatal` / `log.Fatalf` ends the run: the `Run` it produces has
`exited = true` and the `logFatal` event is the last one of its trace.

What the program calls but does not define (the decoders of package `decoder`,
`encoding/json`, the file system, standard input and output) is collected in
the structure `Env`; all theorems hold for every `Env`.
-/

namespace Tachoparser

/-- A Go byte slice that is not nil. -/
abbrev Bytes := List Nat

/-- The command-line flags of main.go, lines 17-24, after `flag.Parse()`. -/
structure Flags where
  card : Bool
  vu : Bool
  input : String
  output : String
  inputList : String
  format : Bool

/-- The externally visible actions of the program, in the order of the source.
`logFatal` is `log.Fatal` / `log.Fatalf` (it prints and exits the process),
`openFile`, `scanFile` and `closeFile` are the `os.Open`, the `bufio.Scanner`
loop and the deferred `Close` of the list file, `writeFile` is an attempted
`os.WriteFile`, `printStdout` is `fmt.Print`. The last four are the calls into
package `decoder` and `encoding/json`. -/
inductive Event (Card Vu : Type) where
  | logPrintf (msg : String)
  | logFatal (msg : String)
  | readStdin
  | readFile (name : String)
  | openFile (name : String)
  | scanFile (name : String)
  | closeFile (name : String)
  | writeFile (name : String) (data : Bytes) (perm : Nat)
  | printStdout (data : Bytes)
  | unmarshalTLV (data : Bytes)
  | unmarshalTV (data : Bytes)
  | jsonMarshal (v : Card ⊕ Vu)
  | jsonMarshalIndent (v : Card ⊕ Vu) (pfx : String) (indent : String)
  deriving DecidableEq

/-- Everything main.go calls and does not define. A Go `error` is its message,
`none` standing for nil; a `[]byte` result that may be nil is an `Option Bytes`.
The decoders fill a zero `Card` / `Vu` and return an error or nil; the
serializers are `json.Marshal` and `json.MarshalIndent`, applied to a `Card` or
a `Vu`. The file operations take and return the world state. `scanLines` is the
`bufio.Scanner` loop over the opened list file: the texts of the successive
lines and the final `scanner.Err()`. -/
structure Env (Card Vu W : Type) where
  nPKsFirstGen : Nat
  nPKsSecondGen : Nat
  unmarshalTLV : Bytes → Card × Option String
  unmarshalTV : Bytes → Vu × Option String
  jsonMarshal : Card ⊕ Vu → Option Bytes × Option String
  jsonMarshalIndent : Card ⊕ Vu → String → String → Option Bytes × Option String
  readStdin : W → (Bytes × Option String) × W
  readFile : W → String → (Bytes × Option String) × W
  openFile : W → String → Option String × W
  scanLines : W → String → (List String × Option String) × W
  writeFile : W → String → Bytes → Nat → Option String × W
  printStdout : W → Bytes → W

/-- What `processData` returns (`out`, `err`) and the calls it made. -/
structure DataResult (Card Vu : Type) where
  out : Option Bytes
  err : Option String
  trace : List (Event Card Vu)

/-- The outcome of a run of `main`, `processSingle` or `processBatch`. -/
structure Run (Card Vu W : Type) where
  trace : List (Event Card Vu)
  world : W
  exited : Bool

variable {Card Vu W : Type}

/-- The function processData, main.go lines 127-149. -/
def processData (env : Env Card Vu W) (flags : Flags) (data : Bytes) : DataResult Card Vu :=
  if flags.card then
    let r := env.unmarshalTLV data
    match r.2 with
    | some e => ⟨none, some ("could not parse card: " ++ e), [.unmarshalTLV data]⟩
    | none =>
      if flags.format then
        let m := env.jsonMarshalIndent (.inl r.1) "" "  "
        ⟨m.1, m.2, [.unmarshalTLV data, .jsonMarshalIndent (.inl r.1) "" "  "]⟩
      else
        let m := env.jsonMarshal (.inl r.1)
        ⟨m.1, m.2, [.unmarshalTLV data, .jsonMarshal (.inl r.1)]⟩
  else
    let r := env.unmarshalTV data
    match r.2 with
    | some e => ⟨none, some ("could not parse vu data: " ++ e), [.unmarshalTV data]⟩
    | none =>
      if flags.format then
        let m := env.jsonMarshalIndent (.inr r.1) "" "  "
        ⟨m.1, m.2, [.unmarshalTV data, .jsonMarshalIndent (.inr r.1) "" "  "]⟩
      else
        let m := env.jsonMarshal (.inr r.1)
        ⟨m.1, m.2, [.unmarshalTV data, .jsonMarshal (.inr r.1)]⟩

/-- The reading half of processSingle, lines 47-60: standard input when
`-input` is empty, the named file otherwise. The event, what was read, and the
world afterwards. -/
def singleRead (env : Env Card Vu W) (flags : Flags) (w : W) :
    Event Card Vu × (Bytes × Option String) × W :=
  if flags.input = "" then
    (.readStdin, env.readStdin w)
  else
    (.readFile flags.input, env.readFile w flags.input)

/-- The function processSingle, main.go lines 46-75. The permission 0644 is 420. -/
def processSingle (env : Env Card Vu W) (flags : Flags) (w : W) : Run Card Vu W :=
  let rd := singleRead env flags w
  match rd.2.1.2 with
  | some e =>
    if flags.input = "" then
      ⟨[rd.1, .logFatal ("error: could not read stdin: " ++ e)], rd.2.2, true⟩
    else
      ⟨[rd.1, .logFatal ("error: could not read file: " ++ e)], rd.2.2, true⟩
  | none =>
    let pd := processData env flags rd.2.1.1
    match pd.err with
    | some e =>
      ⟨rd.1 :: pd.trace ++ [.logFatal ("error: could not process data: " ++ e)], rd.2.2, true⟩
    | none =>
      let dataOut := pd.out.getD []
      if flags.output = "" ∨ flags.output = "-" then
        ⟨rd.1 :: pd.trace ++ [.printStdout dataOut], env.printStdout rd.2.2 dataOut, false⟩
      else
        let wr := env.writeFile rd.2.2 flags.output dataOut 420
        match wr.1 with
        | some e =>
          ⟨rd.1 :: pd.trace ++ [.writeFile flags.output dataOut 420,
            .logFatal ("error: could not write output file: " ++ e)], wr.2, true⟩
        | none =>
          ⟨rd.1 :: pd.trace ++ [.writeFile flags.output dataOut 420], wr.2, false⟩

/-- The white space of Go's `unicode.IsSpace`, by code point. -/
def isSpace (c : Char) : Bool :=
  let n := c.toNat
  (9 ≤ n && n ≤ 13) || n = 32 || n = 133 || n = 160 || n = 5760 ||
  (8192 ≤ n && n ≤ 8202) || n = 8232 || n = 8233 || n = 8239 || n = 8287 || n = 12288

/-- Go's `strings.TrimSpace`: leading and trailing white space removed. -/
def trimSpace (s : String) : String :=
  String.mk ((s.toList.dropWhile isSpace).reverse.dropWhile isSpace).reverse

/-- The list-reading loop of processBatch, lines 86-92: every scanned line is
trimmed and kept when what remains is not empty. -/
def inputFilesOf (lines : List String) : List String :=
  (lines.map trimSpace).filter (fun line => line ≠ "")

/-- The body of the loop of processBatch, lines 103-124, for one input file:
its events and the world afterwards. It never exits. -/
def batchStep (env : Env Card Vu W) (flags : Flags) (inputFile : String) (w : W) :
    List (Event Card Vu) × W :=
  let rd := env.readFile w inputFile
  match rd.1.2 with
  | some e =>
    ([.readFile inputFile,
      .logPrintf ("warning: could not read file " ++ inputFile ++ ": " ++ e)], rd.2)
  | none =>
    let pd := processData env flags rd.1.1
    match pd.err with
    | some e =>
      (.readFile inputFile :: pd.trace ++
        [.logPrintf ("warning: could not process file " ++ inputFile ++ ": " ++ e)], rd.2)
    | none =>
      let outputFile := inputFile ++ ".json"
      let dataOut := pd.out.getD []
      let wr := env.writeFile rd.2 outputFile dataOut 420
      match wr.1 with
      | some e =>
        (.readFile inputFile :: pd.trace ++ [.writeFile outputFile dataOut 420,
          .logPrintf ("warning: could not write output file " ++ outputFile ++ ": " ++ e)], wr.2)
      | none =>
        (.readFile inputFile :: pd.trace ++ [.writeFile outputFile dataOut 420,
          .logPrintf ("processed " ++ inputFile ++ " -> " ++ outputFile)], wr.2)

/-- The loop of processBatch, lines 103-124, over the input files in order. -/
def batchLoop (env : Env Card Vu W) (flags : Flags) : List String → W → List (Event Card Vu) × W
  | [], w => ([], w)
  | inputFile :: rest, w =>
    let s := batchStep env flags inputFile w
    let r := batchLoop env flags rest s.2
    (s.1 ++ r.1, r.2)

/-- The function processBatch, main.go lines 77-125. The deferred `Close` runs
on the normal return only: `log.Fatal` exits without running it. -/
def processBatch (env : Env Card Vu W) (flags : Flags) (w : W) : Run Card Vu W :=
  let op := env.openFile w flags.inputList
  match op.1 with
  | some e =>
    ⟨[.openFile flags.inputList,
      .logFatal ("error: could not open input list file: " ++ e)], op.2, true⟩
  | none =>
    let sc := env.scanLines op.2 flags.inputList
    let inputFiles := inputFilesOf sc.1.1
    match sc.1.2 with
    | some e =>
      ⟨[.openFile flags.inputList, .scanFile flags.inputList,
        .logFatal ("error: could not read input list file: " ++ e)], sc.2, true⟩
    | none =>
      if inputFiles.length = 0 then
        ⟨[.openFile flags.inputList, .scanFile flags.inputList,
          .logFatal "error: no input files found in list"], sc.2, true⟩
      else
        let r := batchLoop env flags inputFiles sc.2
        ⟨[.openFile flags.inputList, .scanFile flags.inputList] ++ r.1 ++
          [.closeFile flags.inputList], r.2, false⟩

/-- The first log line of main, line 27. -/
def startupLog (env : Env Card Vu W) : Event Card Vu :=
  .logPrintf ("loaded certificates: " ++ toString env.nPKsFirstGen ++ " " ++
    toString env.nPKsSecondGen)

/-- The condition of main's first check, line 30. -/
def cardVuRejected (flags : Flags) : Bool :=
  (flags.card && flags.vu) || (!flags.card && !flags.vu)

/-- A run that follows the startup log line. -/
def afterStartup (env : Env Card Vu W) (r : Run Card Vu W) : Run Card Vu W :=
  ⟨startupLog env :: r.trace, r.world, r.exited⟩

/-- The function main, main.go lines 26-44, from the parsed flags on. -/
def main (env : Env Card Vu W) (flags : Flags) (w : W) : Run Card Vu W :=
  if cardVuRejected flags then
    ⟨[startupLog env, .logFatal "either card or vu must be set"], w, true⟩
  else if flags.inputList ≠ "" ∧ flags.input ≠ "" then
    ⟨[startupLog env, .logFatal "input-list and input are mutually exclusive"], w, true⟩
  else if flags.inputList ≠ "" then
    afterStartup env (processBatch env flags w)
  else
    afterStartup env (processSingle env flags w)

/-! ## Observations on traces -/

/-- A call of one of the two decoders. -/
def isDecoderCall : Event Card Vu → Bool
  | .unmarshalTLV _ => true
  | .unmarshalTV _ => true
  | _ => false

/-- A call of one of the two JSON serializers. -/
def isSerializerCall : Event Card Vu → Bool
  | .jsonMarshal _ => true
  | .jsonMarshalIndent _ _ _ => true
  | _ => false

/-- The value a serializer call was given. -/
def serializedValue : Event Card Vu → Option (Card ⊕ Vu)
  | .jsonMarshal v => some v
  | .jsonMarshalIndent v _ _ => some v
  | _ => none

/-- What the serializer returns for a serializer call. -/
def serializerReturn (env : Env Card Vu W) : Event Card Vu → Option (Option Bytes × Option String)
  | .jsonMarshal v => some (env.jsonMarshal v)
  | .jsonMarshalIndent v pfx indent => some (env.jsonMarshalIndent v pfx indent)
  | _ => none

/-- A call of `log.Fatal` or `log.Fatalf`. -/
def isFatal : Event Card Vu → Bool
  | .logFatal _ => true
  | _ => false

/-- An output of data: to standard output or to a file. -/
def isOutput : Event Card Vu → Bool
  | .printStdout _ => true
  | .writeFile _ _ _ => true
  | _ => false

/-- A print to standard output. -/
def isPrintStdout : Event Card Vu → Bool
  | .printStdout _ => true
  | _ => false

/-- Any access to a file, to standard input or to standard output. -/
def isFileOp : Event Card Vu → Bool
  | .readStdin => true
  | .readFile _ => true
  | .openFile _ => true
  | .scanFile _ => true
  | .closeFile _ => true
  | .writeFile _ _ _ => true
  | .printStdout _ => true
  | _ => false

/-- The name of the file a `readFile` event reads. -/
def readName : Event Card Vu → Option String
  | .readFile name => some name
  | _ => none

/-- The name of the file a `writeFile` event writes. -/
def writeName : Event Card Vu → Option String
  | .writeFile name _ _ => some name
  | _ => none

/-- The files a trace attempts to read with `os.ReadFile`, in order. -/
def readAttempts (t : List (Event Card Vu)) : List String := t.filterMap readName

/-- The files a trace attempts to write with `os.WriteFile`, in order. -/
def writeAttempts (t : List (Event Card Vu)) : List String := t.filterMap writeName

/-- The flags with another value of -output. -/
def withOutput (flags : Flags) (o : String) : Flags :=
  ⟨flags.card, flags.vu, flags.input, o, flags.inputList, flags.format⟩

/-- The lines the scanner yields for the list file of a batch run, and the
final scanner error: what `processBatch` reads once the list file is open. -/
def scannedList (env : Env Card Vu W) (flags : Flags) (w : W) : List String × Option String :=
  (env.scanLines (env.openFile w flags.inputList).2 flags.inputList).1

/-! ## A concrete environment

Cards and VU downloads decode to their own bytes; a decoder fails on fewer than
two bytes. The world is a table of files, a table of list files with what the
scanner yields for each, standard input, standard output, and the names that
cannot be written. -/

/-- The world of the concrete environment. -/
structure DemoWorld where
  files : List (String × Bytes)
  lists : List (String × (List String × Option String))
  stdin : Bytes × Option String
  stdout : Bytes
  readOnly : List String
  deriving DecidableEq

/-- The concrete environment. -/
def demoEnv : Env Bytes Bytes DemoWorld where
  nPKsFirstGen := 2
  nPKsSecondGen := 3
  unmarshalTLV := fun data => if data.length < 2 then (data, some "short tag") else (data, none)
  unmarshalTV := fun data => if data.length < 2 then (data, some "short tag") else (data, none)
  jsonMarshal := fun v => (some (v.elim id id), none)
  jsonMarshalIndent := fun v _ _ => (some (32 :: 32 :: v.elim id id), none)
  readStdin := fun w => (w.stdin, w)
  readFile := fun w name =>
    match w.files.lookup name with
    | some d => ((d, none), w)
    | none => (([], some "no such file"), w)
  openFile := fun w name =>
    match w.lists.lookup name with
    | some _ => (none, w)
    | none => (some "no such file", w)
  scanLines := fun w name => ((w.lists.lookup name).getD ([], none), w)
  writeFile := fun w name data _ =>
    if name ∈ w.readOnly then (some "permission denied", w)
    else (none, ⟨(name, data) :: w.files, w.lists, w.stdin, w.stdout, w.readOnly⟩)
  printStdout := fun w data => ⟨w.files, w.lists, w.stdin, w.stdout ++ data, w.readOnly⟩

/-- Two data files, one of them too short to decode, and two list files: the
scanner reads `list.txt` to its end and stops with an error in `long.txt`. -/
def demoWorld : DemoWorld :=
  ⟨[("a.ddd", [1, 2, 3]), ("b.ddd", [7])],
   [("list.txt", (["  a.ddd ", "", "nope", "b.ddd", "a.ddd"], none)),
    ("long.txt", (["a.ddd"], some "bufio.Scanner: token too long"))],
   ([5, 6], none), [], []⟩

/-! ## Lists -/

/-- The last element of a list that ends in one more element. -/
theorem getLast?_cons_append_singleton {α : Type} (a : α) (t : List α) (x : α) :
    (a :: (t ++ [x])).getLast? = some x := by
  rw [← List.cons_append, List.getLast?_append]
  simp

/-- The last element of a list that ends in two more elements. -/
theorem getLast?_cons_append_pair {α : Type} (a : α) (t : List α) (x y : α) :
    (a :: (t ++ [x, y])).getLast? = some y := by
  rw [← List.cons_append, List.getLast?_append]
  simp

/-! ## What processData does not do -/

/-- Every call processData makes is a decoder call or a serializer call. -/
theorem processData_trace_calls (env : Env Card Vu W) (flags : Flags) (data : Bytes)
    (ev : Event Card Vu) (hev : ev ∈ (processData env flags data).trace) :
    isDecoderCall ev = true ∨ isSerializerCall ev = true := by
  obtain ⟨card, vu, input, output, inputList, format⟩ := flags
  cases card
  · cases h : (env.unmarshalTV data).2 <;> cases format <;>
      simp [processData, h] at hev <;>
      rcases hev with rfl | rfl <;> simp [isDecoderCall, isSerializerCall]
  · cases h : (env.unmarshalTLV data).2 <;> cases format <;>
      simp [processData, h] at hev <;>
      rcases hev with rfl | rfl <;> simp [isDecoderCall, isSerializerCall]

/-- A decoder or serializer call is no output, no file access and no exit. -/
theorem call_not_effect (ev : Event Card Vu)
    (h : isDecoderCall ev = true ∨ isSerializerCall ev = true) :
    isOutput ev = false ∧ isFileOp ev = false ∧ isFatal ev = false ∧
    isPrintStdout ev = false ∧ readName ev = none ∧ writeName ev = none := by
  cases ev <;> simp [isDecoderCall, isSerializerCall] at h <;>
    simp [isOutput, isFileOp, isFatal, isPrintStdout, readName, writeName]

/-- The trace of processData holds no output. -/
theorem processData_filter_isOutput (env : Env Card Vu W) (flags : Flags) (data : Bytes) :
    (processData env flags data).trace.filter isOutput = [] := by
  rw [List.filter_eq_nil_iff]
  intro ev hev
  simp [(call_not_effect ev (processData_trace_calls env flags data ev hev)).1]

/-- The trace of processData holds no file access. -/
theorem processData_filter_isFileOp (env : Env Card Vu W) (flags : Flags) (data : Bytes) :
    (processData env flags data).trace.filter isFileOp = [] := by
  rw [List.filter_eq_nil_iff]
  intro ev hev
  simp [(call_not_effect ev (processData_trace_calls env flags data ev hev)).2.1]

/-- The trace of processData holds no `log.Fatal`. -/
theorem processData_filter_isFatal (env : Env Card Vu W) (flags : Flags) (data : Bytes) :
    (processData env flags data).trace.filter isFatal = [] := by
  rw [List.filter_eq_nil_iff]
  intro ev hev
  simp [(call_not_effect ev (processData_trace_calls env flags data ev hev)).2.2.1]

/-- The trace of processData holds no print to standard output. -/
theorem processData_filter_isPrintStdout (env : Env Card Vu W) (flags : Flags) (data : Bytes) :
    (processData env flags data).trace.filter isPrintStdout = [] := by
  rw [List.filter_eq_nil_iff]
  intro ev hev
  simp [(call_not_effect ev (processData_trace_calls env flags data ev hev)).2.2.2.1]

/-- The trace of processData reads no file. -/
theorem processData_readAttempts (env : Env Card Vu W) (flags : Flags) (data : Bytes) :
    readAttempts (processData env flags data).trace = [] := by
  unfold readAttempts
  rw [List.filterMap_eq_nil_iff]
  intro ev hev
  exact (call_not_effect ev (processData_trace_calls env flags data ev hev)).2.2.2.2.1

/-- The trace of processData writes no file. -/
theorem processData_writeAttempts (env : Env Card Vu W) (flags : Flags) (data : Bytes) :
    writeAttempts (processData env flags data).trace = [] := by
  unfold writeAttempts
  rw [List.filterMap_eq_nil_iff]
  intro ev hev
  exact (call_not_effect ev (processData_trace_calls env flags data ev hev)).2.2.2.2.2

/-- The read event of processSingle is no output. -/
theorem singleRead_not_output (env : Env Card Vu W) (flags : Flags) (w : W) :
    isOutput (singleRead env flags w).1 = false := by
  unfold singleRead
  split <;> rfl

/-! ## The batch loop -/

/-- One step of the batch loop attempts to read its file, once. -/
theorem batchStep_readAttempts (env : Env Card Vu W) (flags : Flags) (p : String) (w : W) :
    readAttempts (batchStep env flags p w).1 = [p] := by
  have hpd := processData_readAttempts env flags (env.readFile w p).1.1
  unfold readAttempts at hpd
  unfold batchStep readAttempts
  dsimp only
  split
  · simp [readName]
  · split
    · simp [List.filterMap_append, hpd, readName]
    · split <;> simp [List.filterMap_append, hpd, readName]

/-- One step of the batch loop never calls `log.Fatal`. -/
theorem batchStep_filter_isFatal (env : Env Card Vu W) (flags : Flags) (p : String) (w : W) :
    (batchStep env flags p w).1.filter isFatal = [] := by
  have hpd := processData_filter_isFatal env flags (env.readFile w p).1.1
  unfold batchStep
  dsimp only
  split
  · simp [isFatal]
  · split
    · simp [List.filter_cons, List.filter_append, hpd, isFatal]
    · split <;> simp [List.filter_cons, List.filter_append, hpd, isFatal]

/-- One step of the batch loop never prints to standard output. -/
theorem batchStep_filter_isPrintStdout (env : Env Card Vu W) (flags : Flags) (p : String)
    (w : W) : (batchStep env flags p w).1.filter isPrintStdout = [] := by
  have hpd := processData_filter_isPrintStdout env flags (env.readFile w p).1.1
  unfold batchStep
  dsimp only
  split
  · simp [isPrintStdout]
  · split
    · simp [List.filter_cons, List.filter_append, hpd, isPrintStdout]
    · split <;> simp [List.filter_cons, List.filter_append, hpd, isPrintStdout]

/-- One step of the batch loop writes no file when the read or the decoding of
its file fails. -/
theorem batchStep_writeAttempts_failure (env : Env Card Vu W) (flags : Flags) (p : String)
    (w : W)
    (h : (env.readFile w p).1.2 ≠ none ∨
      (processData env flags (env.readFile w p).1.1).err ≠ none) :
    writeAttempts (batchStep env flags p w).1 = [] := by
  have hpd := processData_writeAttempts env flags (env.readFile w p).1.1
  unfold writeAttempts at hpd
  unfold batchStep writeAttempts
  dsimp only
  split
  · simp [writeName]
  · rename_i hr
    split
    · simp [List.filterMap_append, hpd, writeName]
    · rename_i hd
      rcases h with h | h
      · exact absurd hr h
      · exact absurd hd h

/-- One step of the batch loop whose read and decoding succeed attempts one
write, to the input name followed by ".json". -/
theorem batchStep_writeAttempts_success (env : Env Card Vu W) (flags : Flags) (p : String)
    (w : W) (hr : (env.readFile w p).1.2 = none)
    (hd : (processData env flags (env.readFile w p).1.1).err = none) :
    writeAttempts (batchStep env flags p w).1 = [p ++ ".json"] := by
  have hpd := processData_writeAttempts env flags (env.readFile w p).1.1
  unfold writeAttempts at hpd
  unfold batchStep writeAttempts
  simp only [hr, hd]
  split <;> simp [List.filterMap_append, hpd, writeName]

/-- Whatever one step of the batch loop writes, it writes to the input name
followed by ".json". -/
theorem batchStep_writeAttempts_mem (env : Env Card Vu W) (flags : Flags) (p : String)
    (w : W) (path : String) (h : path ∈ writeAttempts (batchStep env flags p w).1) :
    path = p ++ ".json" := by
  by_cases hr : (env.readFile w p).1.2 = none
  · by_cases hd : (processData env flags (env.readFile w p).1.1).err = none
    · rw [batchStep_writeAttempts_success env flags p w hr hd] at h
      simpa using h
    · rw [batchStep_writeAttempts_failure env flags p w (Or.inr hd)] at h
      simp at h
  · rw [batchStep_writeAttempts_failure env flags p w (Or.inl hr)] at h
    simp at h

/-- The batch loop attempts to read every one of its files, in order. -/
theorem batchLoop_readAttempts (env : Env Card Vu W) (flags : Flags) (files : List String)
    (w : W) : readAttempts (batchLoop env flags files w).1 = files := by
  induction files generalizing w with
  | nil => rfl
  | cons p rest ih =>
    have hs := batchStep_readAttempts env flags p w
    unfold readAttempts at hs ih ⊢
    simp [batchLoop, List.filterMap_append, hs, ih]

/-- The batch loop never calls `log.Fatal`. -/
theorem batchLoop_filter_isFatal (env : Env Card Vu W) (flags : Flags) (files : List String)
    (w : W) : (batchLoop env flags files w).1.filter isFatal = [] := by
  induction files generalizing w with
  | nil => rfl
  | cons p rest ih =>
    simp [batchLoop, List.filter_append, batchStep_filter_isFatal, ih]

/-- The batch loop never prints to standard output. -/
theorem batchLoop_filter_isPrintStdout (env : Env Card Vu W) (flags : Flags)
    (files : List String) (w : W) :
    (batchLoop env flags files w).1.filter isPrintStdout = [] := by
  induction files generalizing w with
  | nil => rfl
  | cons p rest ih =>
    simp [batchLoop, List.filter_append, batchStep_filter_isPrintStdout, ih]

/-- Whatever the batch loop writes, it writes to the name of one of its files
followed by ".json". -/
theorem batchLoop_writeAttempts_mem (env : Env Card Vu W) (flags : Flags)
    (files : List String) (w : W) (path : String)
    (h : path ∈ writeAttempts (batchLoop env flags files w).1) :
    ∃ p ∈ files, path = p ++ ".json" := by
  induction files generalizing w with
  | nil => simp [batchLoop, writeAttempts] at h
  | cons p rest ih =>
    have hsplit : writeAttempts (batchLoop env flags (p :: rest) w).1 =
        writeAttempts (batchStep env flags p w).1 ++
          writeAttempts (batchLoop env flags rest (batchStep env flags p w).2).1 := by
      simp [batchLoop, writeAttempts, List.filterMap_append]
    rw [hsplit, List.mem_append] at h
    rcases h with h | h
    · exact ⟨p, List.mem_cons_self _ _, batchStep_writeAttempts_mem env flags p w path h⟩
    · obtain ⟨q, hq, hpath⟩ := ih _ h
      exact ⟨q, List.mem_cons_of_mem _ hq, hpath⟩

/-- The batch loop does not consult -output. -/
theorem batchLoop_withOutput (env : Env Card Vu W) (flags : Flags) (o : String)
    (files : List String) (w : W) :
    batchLoop env (withOutput flags o) files w = batchLoop env flags files w := by
  induction files generalizing w with
  | nil => rfl
  | cons p rest ih =>
    have hs : batchStep env (withOutput flags o) p w = batchStep env flags p w := rfl
    simp [batchLoop, hs, ih]

/-! ## processData -/

/-- C1: under a flag configuration main accepts (exactly one of -card and -vu
set), processData calls exactly one decoder, exactly once, on the input bytes:
the card (TLV) decoder when -card is set and the VU (TV) decoder when -vu is
set; and whatever it serializes is the Card, respectively the Vu, that decoder
filled. -/
theorem processData_selects_decoder (env : Env Card Vu W) (flags : Flags) (data : Bytes)
    (hvalid : cardVuRejected flags = false) :
    (flags.card = true →
      (processData env flags data).trace.filter isDecoderCall = [.unmarshalTLV data] ∧
      ∀ v ∈ (processData env flags data).trace.filterMap serializedValue,
        v = .inl (env.unmarshalTLV data).1) ∧
    (flags.vu = true →
      (processData env flags data).trace.filter isDecoderCall = [.unmarshalTV data] ∧
      ∀ v ∈ (processData env flags data).trace.filterMap serializedValue,
        v = .inr (env.unmarshalTV data).1) := by
  obtain ⟨card, vu, input, output, inputList, format⟩ := flags
  cases card <;> cases vu <;> simp [cardVuRejected] at hvalid
  · refine ⟨by simp, fun _ => ?_⟩
    cases h : (env.unmarshalTV data).2 <;> cases format <;>
      simp [processData, h, isDecoderCall, serializedValue]
  · refine ⟨fun _ => ?_, by simp⟩
    cases h : (env.unmarshalTLV data).2 <;> cases format <;>
      simp [processData, h, isDecoderCall, serializedValue]

/-- Witness for C1: -card alone on three bytes, and -vu alone on the same. -/
theorem processData_selects_decoder_witness :
    ((processData demoEnv ⟨true, false, "", "", "", false⟩ [1, 2, 3]).trace.filter isDecoderCall
        = [.unmarshalTLV [1, 2, 3]]) ∧
    ((processData demoEnv ⟨false, true, "", "", "", true⟩ [1, 2, 3]).trace.filter isDecoderCall
        = [.unmarshalTV [1, 2, 3]]) :=
  ⟨((processData_selects_decoder demoEnv ⟨true, false, "", "", "", false⟩ [1, 2, 3] rfl).1 rfl).1,
   ((processData_selects_decoder demoEnv ⟨false, true, "", "", "", true⟩ [1, 2, 3] rfl).2 rfl).1⟩

/-- C2: processData returns a result or an error. When the selected decoder
returns an error, the output bytes are nil, the error is the decoder's error
behind "could not parse card: " (card) or "could not parse vu data: " (VU), and
no serializer is called. When the decoder succeeds, the serializer is called
once, on the decoded value, and processData returns exactly what that call
returned. processData never calls `log.Fatal`. It returns bytes together with
an error for no input, the serializers (which are `encoding/json`) doing so for
none. -/
theorem processData_result_or_error (env : Env Card Vu W) (flags : Flags) (data : Bytes) :
    (∀ e, flags.card = true → (env.unmarshalTLV data).2 = some e →
      (processData env flags data).out = none ∧
      (processData env flags data).err = some ("could not parse card: " ++ e) ∧
      (processData env flags data).trace.filter isSerializerCall = []) ∧
    (∀ e, flags.card = false → (env.unmarshalTV data).2 = some e →
      (processData env flags data).out = none ∧
      (processData env flags data).err = some ("could not parse vu data: " ++ e) ∧
      (processData env flags data).trace.filter isSerializerCall = []) ∧
    ((if flags.card then (env.unmarshalTLV data).2 else (env.unmarshalTV data).2) = none →
      (processData env flags data).trace.filterMap (serializerReturn env) =
        [((processData env flags data).out, (processData env flags data).err)] ∧
      (processData env flags data).trace.filterMap serializedValue =
        [if flags.card then .inl (env.unmarshalTLV data).1 else .inr (env.unmarshalTV data).1]) ∧
    (∀ ev ∈ (processData env flags data).trace, isFatal ev = false) ∧
    ((∀ v, (env.jsonMarshal v).1 = none ∨ (env.jsonMarshal v).2 = none) →
      (∀ v pfx indent, (env.jsonMarshalIndent v pfx indent).1 = none ∨
        (env.jsonMarshalIndent v pfx indent).2 = none) →
      (processData env flags data).out = none ∨ (processData env flags data).err = none) := by
  obtain ⟨card, vu, input, output, inputList, format⟩ := flags
  refine ⟨?_, ?_, ?_, ?_, ?_⟩
  · intro e hc h
    simp only at hc
    subst hc
    simp [processData, h, isSerializerCall]
  · intro e hc h
    simp only at hc
    subst hc
    simp [processData, h, isSerializerCall]
  · cases card <;> cases format <;> intro h <;> simp at h <;>
      simp [processData, h, serializerReturn, serializedValue]
  · cases card
    · cases h : (env.unmarshalTV data).2 <;> cases format <;>
        simp [processData, h, isFatal]
    · cases h : (env.unmarshalTLV data).2 <;> cases format <;>
        simp [processData, h, isFatal]
  · intro h1 h2
    cases card
    · cases h : (env.unmarshalTV data).2 <;> cases format <;>
        simp [processData, h, h1, h2]
    · cases h : (env.unmarshalTLV data).2 <;> cases format <;>
        simp [processData, h, h1, h2]

/-- Witness for C2: a one-byte card fails to decode, and processData returns
nil bytes with the wrapped error; a three-byte card decodes, and processData
does not return both bytes and an error. -/
theorem processData_result_or_error_witness :
    (processData demoEnv ⟨true, false, "", "", "", false⟩ [1]).out = none ∧
    (processData demoEnv ⟨true, false, "", "", "", false⟩ [1]).err =
      some ("could not parse card: " ++ "short tag") ∧
    (processData demoEnv ⟨true, false, "", "", "", false⟩ [1]).trace.filter isSerializerCall
      = [] ∧
    ((processData demoEnv ⟨true, false, "", "", "", false⟩ [1, 2, 3]).out = none ∨
      (processData demoEnv ⟨true, false, "", "", "", false⟩ [1, 2, 3]).err = none) :=
  ⟨((processData_result_or_error demoEnv ⟨true, false, "", "", "", false⟩ [1]).1
      "short tag" rfl rfl).1,
   ((processData_result_or_error demoEnv ⟨true, false, "", "", "", false⟩ [1]).1
      "short tag" rfl rfl).2.1,
   ((processData_result_or_error demoEnv ⟨true, false, "", "", "", false⟩ [1]).1
      "short tag" rfl rfl).2.2,
   (processData_result_or_error demoEnv ⟨true, false, "", "", "", false⟩ [1, 2, 3]).2.2.2.2
      (fun _ => Or.inr rfl) (fun _ _ _ => Or.inr rfl)⟩

/-- C3: the decoded value is serialized in one of two modes, chosen by -format
alone: for every input the selected decoder accepts, processData returns what
`json.MarshalIndent` with the empty prefix and a two-space indent returns when
-format is set, and what `json.Marshal` returns when it is not; for a Card and
for a Vu alike. -/
theorem processData_format_mode (env : Env Card Vu W) (flags : Flags) (data : Bytes) :
    (flags.card = true → (env.unmarshalTLV data).2 = none →
      ((processData env flags data).out, (processData env flags data).err) =
        if flags.format then env.jsonMarshalIndent (.inl (env.unmarshalTLV data).1) "" "  "
        else env.jsonMarshal (.inl (env.unmarshalTLV data).1)) ∧
    (flags.card = false → (env.unmarshalTV data).2 = none →
      ((processData env flags data).out, (processData env flags data).err) =
        if flags.format then env.jsonMarshalIndent (.inr (env.unmarshalTV data).1) "" "  "
        else env.jsonMarshal (.inr (env.unmarshalTV data).1)) := by
  obtain ⟨card, vu, input, output, inputList, format⟩ := flags
  constructor
  · intro hc h
    simp only at hc
    subst hc
    cases format <;> simp [processData, h]
  · intro hc h
    simp only at hc
    subst hc
    cases format <;> simp [processData, h]

/-- Witness for C3: a three-byte card with -format, a three-byte VU download
without. -/
theorem processData_format_mode_witness :
    ((processData demoEnv ⟨true, false, "", "", "", true⟩ [1, 2, 3]).out,
      (processData demoEnv ⟨true, false, "", "", "", true⟩ [1, 2, 3]).err) =
      demoEnv.jsonMarshalIndent (.inl [1, 2, 3]) "" "  " ∧
    ((processData demoEnv ⟨false, true, "", "", "", false⟩ [1, 2, 3]).out,
      (processData demoEnv ⟨false, true, "", "", "", false⟩ [1, 2, 3]).err) =
      demoEnv.jsonMarshal (.inr [1, 2, 3]) :=
  ⟨(processData_format_mode demoEnv ⟨true, false, "", "", "", true⟩ [1, 2, 3]).1 rfl rfl,
   (processData_format_mode demoEnv ⟨false, true, "", "", "", false⟩ [1, 2, 3]).2 rfl rfl⟩

/-! ## processSingle -/

/-- C5: single-file mode aborts on a failure. If reading the input fails, or
processData returns an error, processSingle ends in `log.Fatalf` and its trace
holds no output at all, neither a print to standard output nor a write of a
file. When both succeed there is exactly one output: the print of the result to
standard output when -output is empty or "-", the write of the result to the
-output file otherwise. An output in the trace means the read and processData
succeeded. -/
theorem processSingle_aborts_on_failure (env : Env Card Vu W) (flags : Flags) (w : W) :
    (∀ e, (singleRead env flags w).2.1.2 = some e →
      (processSingle env flags w).exited = true ∧
      (∃ msg, (processSingle env flags w).trace.getLast? = some (.logFatal msg)) ∧
      (processSingle env flags w).trace.filter isOutput = []) ∧
    (∀ e, (singleRead env flags w).2.1.2 = none →
      (processData env flags (singleRead env flags w).2.1.1).err = some e →
      (processSingle env flags w).exited = true ∧
      (∃ msg, (processSingle env flags w).trace.getLast? = some (.logFatal msg)) ∧
      (processSingle env flags w).trace.filter isOutput = []) ∧
    ((singleRead env flags w).2.1.2 = none →
      (processData env flags (singleRead env flags w).2.1.1).err = none →
      (processSingle env flags w).trace.filter isOutput =
        [if flags.output = "" ∨ flags.output = "-" then
          .printStdout ((processData env flags (singleRead env flags w).2.1.1).out.getD [])
        else
          .writeFile flags.output
            ((processData env flags (singleRead env flags w).2.1.1).out.getD []) 420]) ∧
    ((processSingle env flags w).trace.filter isOutput ≠ [] →
      (singleRead env flags w).2.1.2 = none ∧
      (processData env flags (singleRead env flags w).2.1.1).err = none) := by
  have hrd := singleRead_not_output env flags w
  have hpd := processData_filter_isOutput env flags (singleRead env flags w).2.1.1
  refine ⟨?_, ?_, ?_, ?_⟩
  · intro e h
    unfold processSingle
    simp only [h]
    split <;> simp only [List.filter_cons, hrd] <;> simp [isOutput]
  · intro e h h2
    unfold processSingle
    simp only [h, h2, List.filter_cons, List.filter_append, hrd, hpd]
    refine ⟨trivial, ⟨_, getLast?_cons_append_singleton _ _ _⟩, ?_⟩
    simp [isOutput]
  · intro h h2
    unfold processSingle
    simp only [h, h2]
    split
    · simp only [List.filter_cons, List.filter_append, hrd, hpd]
      simp [isOutput]
    · split <;> simp only [List.filter_cons, List.filter_append, hrd, hpd] <;>
        simp [isOutput]
  · intro hne
    cases h : (singleRead env flags w).2.1.2 with
    | some e =>
      exfalso
      apply hne
      unfold processSingle
      simp only [h]
      split <;> simp only [List.filter_cons, hrd] <;> simp [isOutput]
    | none =>
      refine ⟨rfl, ?_⟩
      cases h2 : (processData env flags (singleRead env flags w).2.1.1).err with
      | none => rfl
      | some e =>
        exfalso
        apply hne
        unfold processSingle
        simp only [h, h2, List.filter_cons, List.filter_append, hrd, hpd]
        simp [isOutput]

/-- Witness for C5: -card with -input naming a file that does not exist. The
read fails, the run ends in `log.Fatalf`, and nothing is output. -/
theorem processSingle_aborts_on_failure_witness :
    (processSingle demoEnv ⟨true, false, "missing.ddd", "out.json", "", false⟩ demoWorld).exited
      = true ∧
    (∃ msg, (processSingle demoEnv ⟨true, false, "missing.ddd", "out.json", "", false⟩
      demoWorld).trace.getLast? = some (.logFatal msg)) ∧
    (processSingle demoEnv ⟨true, false, "missing.ddd", "out.json", "", false⟩
      demoWorld).trace.filter isOutput = [] :=
  (processSingle_aborts_on_failure demoEnv ⟨true, false, "missing.ddd", "out.json", "", false⟩
    demoWorld).1 "no such file" rfl

/-! ## processBatch -/

/-- The trace of processBatch starts with the opening of the list file. -/
theorem processBatch_trace_head (env : Env Card Vu W) (flags : Flags) (w : W) :
    ∃ t, (processBatch env flags w).trace = .openFile flags.inputList :: t := by
  unfold processBatch
  dsimp only
  split
  · exact ⟨_, rfl⟩
  · split
    · exact ⟨_, rfl⟩
    · split
      · exact ⟨_, rfl⟩
      · exact ⟨_, rfl⟩

/-- The read event of processSingle is a read of standard input or of a file. -/
theorem singleRead_event (env : Env Card Vu W) (flags : Flags) (w : W) :
    (singleRead env flags w).1 = .readStdin ∨
    (singleRead env flags w).1 = .readFile flags.input := by
  unfold singleRead
  split
  · exact Or.inl rfl
  · exact Or.inr rfl

/-- The trace of processSingle starts with its read event. -/
theorem processSingle_trace_head (env : Env Card Vu W) (flags : Flags) (w : W) :
    ∃ t, (processSingle env flags w).trace = (singleRead env flags w).1 :: t := by
  unfold processSingle
  dsimp only
  split
  · split <;> exact ⟨_, rfl⟩
  · split
    · exact ⟨_, rfl⟩
    · split
      · exact ⟨_, rfl⟩
      · split <;> exact ⟨_, rfl⟩

/-- C4 as stated fails: the scanner yields the line "a.ddd" of the list file
long.txt and then stops with an error; processBatch ends in `log.Fatalf` and
attempts no input file, although "a.ddd" is a non-blank line of the list. -/
theorem processBatch_scan_error_attempts_nothing :
    inputFilesOf (scannedList demoEnv ⟨true, false, "", "", "long.txt", false⟩ demoWorld).1
      = ["a.ddd"] ∧
    readAttempts (processBatch demoEnv ⟨true, false, "", "", "long.txt", false⟩ demoWorld).trace
      = [] ∧
    (processBatch demoEnv ⟨true, false, "", "", "long.txt", false⟩ demoWorld).trace =
      [.openFile "long.txt", .scanFile "long.txt",
        .logFatal "error: could not read input list file: bufio.Scanner: token too long"] ∧
    (processBatch demoEnv ⟨true, false, "", "", "long.txt", false⟩ demoWorld).exited = true := by
  decide

/-- C4, amended: for every input list that is opened and scanned to its end
without error, processBatch attempts every non-blank, whitespace-trimmed line
of the list as an input file, in list order, whatever happened to the earlier
files; it calls `log.Fatal` only for a list with no such line, and otherwise
returns normally. In every step of the loop, a file that cannot be read or
whose decoding fails gets no write and no `log.Fatal`, and the loop goes on
with the remaining files. -/
theorem processBatch_skips_failures (env : Env Card Vu W) (flags : Flags) (w : W)
    (hopen : (env.openFile w flags.inputList).1 = none)
    (hscan : (scannedList env flags w).2 = none) :
    readAttempts (processBatch env flags w).trace =
      inputFilesOf (scannedList env flags w).1 ∧
    (inputFilesOf (scannedList env flags w).1 ≠ [] →
      (processBatch env flags w).exited = false ∧
      (processBatch env flags w).trace.filter isFatal = []) ∧
    (∀ p w', (env.readFile w' p).1.2 ≠ none ∨
        (processData env flags (env.readFile w' p).1.1).err ≠ none →
      writeAttempts (batchStep env flags p w').1 = [] ∧
      (batchStep env flags p w').1.filter isFatal = []) ∧
    (∀ p rest w', (batchLoop env flags (p :: rest) w').1 =
      (batchStep env flags p w').1 ++
        (batchLoop env flags rest (batchStep env flags p w').2).1) := by
  unfold scannedList at hscan ⊢
  refine ⟨?_, ?_, ?_, ?_⟩
  · unfold processBatch
    simp only [hopen, hscan]
    split
    · rename_i hlen
      rw [List.length_eq_zero] at hlen
      rw [hlen]
      simp [readAttempts, readName]
    · have hl := batchLoop_readAttempts env flags
        (inputFilesOf (env.scanLines (env.openFile w flags.inputList).2 flags.inputList).1.1)
        (env.scanLines (env.openFile w flags.inputList).2 flags.inputList).2
      unfold readAttempts at hl ⊢
      simp [List.filterMap_append, hl, readName]
  · intro hne
    unfold processBatch
    simp only [hopen, hscan]
    have hlen : ¬ (inputFilesOf
        (env.scanLines (env.openFile w flags.inputList).2 flags.inputList).1.1).length = 0 := by
      rw [List.length_eq_zero]
      exact hne
    simp only [hlen, if_false]
    simp [List.filter_append, batchLoop_filter_isFatal, isFatal]
  · intro p w' h
    exact ⟨batchStep_writeAttempts_failure env flags p w' h,
      batchStep_filter_isFatal env flags p w'⟩
  · intro p rest w'
    rfl

/-- Witness for C4, amended: the list file list.txt of the concrete world,
with the lines "  a.ddd ", "", "nope", "b.ddd" and "a.ddd": the second is
blank, "nope" cannot be read and "b.ddd" does not decode. -/
theorem processBatch_skips_failures_witness :
    readAttempts (processBatch demoEnv ⟨true, false, "", "", "list.txt", false⟩ demoWorld).trace
      = inputFilesOf
        (scannedList demoEnv ⟨true, false, "", "", "list.txt", false⟩ demoWorld).1 :=
  (processBatch_skips_failures demoEnv ⟨true, false, "", "", "list.txt", false⟩ demoWorld
    rfl rfl).1

/-- C6 as stated fails: with the input "a.ddd" in the list and -output set to
"a.ddd.json", the batch run writes to the -output path. -/
theorem processBatch_writes_output_path :
    (⟨true, false, "", "a.ddd.json", "list.txt", false⟩ : Flags).output = "a.ddd.json" ∧
    "a.ddd.json" ∈ writeAttempts (processBatch demoEnv
      ⟨true, false, "", "a.ddd.json", "list.txt", false⟩ demoWorld).trace := by
  decide

/-- C6, amended: in every step of the batch loop, an input path p that is read
and decoded successfully gets exactly one write, to p followed by ".json". A
batch run prints nothing to standard output, every write of the run goes to a
listed input path followed by ".json", and -output is never consulted: the run
is the same for every value of it. So a write reaches the -output path only
when that path is a listed input path followed by ".json". -/
theorem processBatch_writes_beside_input (env : Env Card Vu W) (flags : Flags) (w : W) :
    (∀ p w', (env.readFile w' p).1.2 = none →
      (processData env flags (env.readFile w' p).1.1).err = none →
      writeAttempts (batchStep env flags p w').1 = [p ++ ".json"] ∧
      (batchStep env flags p w').1.filter isPrintStdout = []) ∧
    (processBatch env flags w).trace.filter isPrintStdout = [] ∧
    (∀ path ∈ writeAttempts (processBatch env flags w).trace,
      ∃ p ∈ inputFilesOf (scannedList env flags w).1, path = p ++ ".json") ∧
    (∀ o, processBatch env (withOutput flags o) w = processBatch env flags w) := by
  refine ⟨?_, ?_, ?_, ?_⟩
  · intro p w' hr hd
    exact ⟨batchStep_writeAttempts_success env flags p w' hr hd,
      batchStep_filter_isPrintStdout env flags p w'⟩
  · unfold processBatch
    dsimp only
    split
    · simp [isPrintStdout]
    · split
      · simp [isPrintStdout]
      · split
        · simp [isPrintStdout]
        · simp [List.filter_append, batchLoop_filter_isPrintStdout, isPrintStdout]
  · intro path hpath
    unfold processBatch at hpath
    unfold scannedList
    dsimp only at hpath
    split at hpath
    · simp [writeAttempts, writeName] at hpath
    · split at hpath
      · simp [writeAttempts, writeName] at hpath
      · split at hpath
        · simp [writeAttempts, writeName] at hpath
        · apply batchLoop_writeAttempts_mem env flags _
            (env.scanLines (env.openFile w flags.inputList).2 flags.inputList).2
          simpa [writeAttempts, List.filterMap_append, writeName] using hpath
  · intro o
    unfold processBatch
    simp only [batchLoop_withOutput]
    rfl

/-- Witness for C6, amended: the file a.ddd of the concrete world is read and
decoded, and the step writes a.ddd.json. -/
theorem processBatch_writes_beside_input_witness :
    writeAttempts (batchStep demoEnv ⟨true, false, "", "", "list.txt", false⟩ "a.ddd"
      demoWorld).1 = ["a.ddd" ++ ".json"] :=
  ((processBatch_writes_beside_input demoEnv ⟨true, false, "", "", "list.txt", false⟩
    demoWorld).1 "a.ddd" demoWorld rfl rfl).1

/-! ## main -/

/-- The message of main's first check is none of the other fatal messages. -/
theorem cardVu_msg_ne (e : String) :
    "either card or vu must be set" ≠ "input-list and input are mutually exclusive" ∧
    "either card or vu must be set" ≠ "error: no input files found in list" ∧
    "either card or vu must be set" ≠ "error: could not read stdin: " ++ e ∧
    "either card or vu must be set" ≠ "error: could not read file: " ++ e ∧
    "either card or vu must be set" ≠ "error: could not process data: " ++ e ∧
    "either card or vu must be set" ≠ "error: could not write output file: " ++ e ∧
    "either card or vu must be set" ≠ "error: could not open input list file: " ++ e ∧
    "either card or vu must be set" ≠ "error: could not read input list file: " ++ e := by
  refine ⟨by decide, by decide, ?_, ?_, ?_, ?_, ?_, ?_⟩ <;>
    · intro h
      have h2 := congrArg String.data h
      simp at h2

/-- The fatal error of main's first check is not raised by processSingle. -/
theorem processSingle_no_cardVu_fatal (env : Env Card Vu W) (flags : Flags) (w : W) :
    Event.logFatal "either card or vu must be set" ∉ (processSingle env flags w).trace := by
  intro hmem
  have hrd := singleRead_event env flags w
  have hpd := processData_filter_isFatal env flags (singleRead env flags w).2.1.1
  have hpd2 : Event.logFatal "either card or vu must be set" ∉
      (processData env flags (singleRead env flags w).2.1.1).trace := by
    intro hm
    have := List.mem_filter.mpr ⟨hm, (rfl : isFatal (Event.logFatal
      "either card or vu must be set" : Event Card Vu) = true)⟩
    rw [hpd] at this
    simp at this
  have hne : Event.logFatal "either card or vu must be set" ≠ (singleRead env flags w).1 := by
    rcases hrd with h | h <;> rw [h] <;> simp
  unfold processSingle at hmem
  dsimp only at hmem
  split at hmem
  · rename_i e _
    have hm := cardVu_msg_ne e
    split at hmem <;> simp [hne, hm] at hmem
  · split at hmem
    · rename_i e _
      have hm := cardVu_msg_ne e
      simp [hne, hm, hpd2] at hmem
    · split at hmem
      · simp [hne, hpd2] at hmem
      · split at hmem
        · rename_i e _
          have hm := cardVu_msg_ne e
          simp [hne, hm, hpd2] at hmem
        · simp [hne, hpd2] at hmem

/-- The fatal error of main's first check is not raised by processBatch. -/
theorem processBatch_no_cardVu_fatal (env : Env Card Vu W) (flags : Flags) (w : W) :
    Event.logFatal "either card or vu must be set" ∉ (processBatch env flags w).trace := by
  intro hmem
  have hloop : ∀ files w', Event.logFatal "either card or vu must be set" ∉
      (batchLoop env flags files w').1 := by
    intro files w' hm
    have := List.mem_filter.mpr ⟨hm, (rfl : isFatal (Event.logFatal
      "either card or vu must be set" : Event Card Vu) = true)⟩
    rw [batchLoop_filter_isFatal] at this
    simp at this
  unfold processBatch at hmem
  dsimp only at hmem
  split at hmem
  · rename_i e _
    have hm := cardVu_msg_ne e
    simp [hm] at hmem
  · split at hmem
    · rename_i e _
      have hm := cardVu_msg_ne e
      simp [hm] at hmem
    · split at hmem
      · have hm := cardVu_msg_ne ""
        simp [hm] at hmem
      · simp [hloop] at hmem

/-- The run of main when the card/vu check fails. -/
theorem main_of_rejected (env : Env Card Vu W) (flags : Flags) (w : W)
    (hrej : cardVuRejected flags = true) :
    main env flags w =
      ⟨[startupLog env, .logFatal "either card or vu must be set"], w, true⟩ := by
  unfold main
  rw [if_pos hrej]

/-- The run of main when -input-list and -input are both given. -/
theorem main_of_both (env : Env Card Vu W) (flags : Flags) (w : W)
    (hrej : cardVuRejected flags = false) (hb : flags.inputList ≠ "" ∧ flags.input ≠ "") :
    main env flags w =
      ⟨[startupLog env, .logFatal "input-list and input are mutually exclusive"], w, true⟩ := by
  unfold main
  rw [if_neg (by simp [hrej]), if_pos hb]

/-- The run of main in batch mode. -/
theorem main_of_batch (env : Env Card Vu W) (flags : Flags) (w : W)
    (hrej : cardVuRejected flags = false) (hb : ¬ (flags.inputList ≠ "" ∧ flags.input ≠ ""))
    (hl : flags.inputList ≠ "") :
    main env flags w = afterStartup env (processBatch env flags w) := by
  unfold main
  rw [if_neg (by simp [hrej]), if_neg hb, if_pos hl]

/-- The run of main in single-file mode. -/
theorem main_of_single (env : Env Card Vu W) (flags : Flags) (w : W)
    (hrej : cardVuRejected flags = false) (hb : ¬ (flags.inputList ≠ "" ∧ flags.input ≠ ""))
    (hl : ¬ flags.inputList ≠ "") :
    main env flags w = afterStartup env (processSingle env flags w) := by
  unfold main
  rw [if_neg (by simp [hrej]), if_neg hb, if_neg hl]

/-- C7 as stated fails: with -card alone, and -input and -input-list both
set, main ends in a fatal error before any file, standard input or standard
output is touched, although exactly one of -card and -vu is set. -/
theorem main_fatal_with_card_alone :
    cardVuRejected ⟨true, false, "a.ddd", "", "list.txt", false⟩ = false ∧
    (main demoEnv ⟨true, false, "a.ddd", "", "list.txt", false⟩ demoWorld).exited = true ∧
    (main demoEnv ⟨true, false, "a.ddd", "", "list.txt", false⟩ demoWorld).trace.filter isFileOp
      = [] := by
  decide

/-- C7, amended: main ends in the fatal error "either card or vu must be set",
right after its startup log line and with the world untouched, if and only if
-card and -vu are both set or both unset. When exactly one of them is set,
that fatal error is never raised, and main goes on to its next check. -/
theorem main_cardVu_check (env : Env Card Vu W) (flags : Flags) (w : W) :
    (cardVuRejected flags = true ↔
      (flags.card = true ∧ flags.vu = true) ∨ (flags.card = false ∧ flags.vu = false)) ∧
    (((main env flags w).trace = [startupLog env, .logFatal "either card or vu must be set"] ∧
        (main env flags w).world = w ∧ (main env flags w).exited = true) ↔
      cardVuRejected flags = true) ∧
    (cardVuRejected flags = false →
      Event.logFatal "either card or vu must be set" ∉ (main env flags w).trace ∧
      main env flags w =
        if flags.inputList ≠ "" ∧ flags.input ≠ "" then
          ⟨[startupLog env, .logFatal "input-list and input are mutually exclusive"], w, true⟩
        else if flags.inputList ≠ "" then afterStartup env (processBatch env flags w)
        else afterStartup env (processSingle env flags w)) := by
  have hpass : cardVuRejected flags = false →
      Event.logFatal "either card or vu must be set" ∉ (main env flags w).trace := by
    intro hrej hmem
    have hb := processBatch_no_cardVu_fatal env flags w
    have hs := processSingle_no_cardVu_fatal env flags w
    have hm := cardVu_msg_ne ""
    by_cases hboth : flags.inputList ≠ "" ∧ flags.input ≠ ""
    · rw [main_of_both env flags w hrej hboth] at hmem
      simp [startupLog, hm] at hmem
    · by_cases hl : flags.inputList ≠ ""
      · rw [main_of_batch env flags w hrej hboth hl] at hmem
        simp [afterStartup, startupLog, hb] at hmem
      · rw [main_of_single env flags w hrej hboth hl] at hmem
        simp [afterStartup, startupLog, hs] at hmem
  refine ⟨?_, ?_, ?_⟩
  · obtain ⟨card, vu, input, output, inputList, format⟩ := flags
    cases card <;> cases vu <;> simp [cardVuRejected]
  · constructor
    · intro h
      by_contra hrej
      have hrej2 : cardVuRejected flags = false := by simpa using hrej
      apply hpass hrej2
      rw [h.1]
      simp
    · intro hrej
      rw [main_of_rejected env flags w hrej]
      exact ⟨rfl, rfl, rfl⟩
  · intro hrej
    refine ⟨hpass hrej, ?_⟩
    by_cases hboth : flags.inputList ≠ "" ∧ flags.input ≠ ""
    · rw [main_of_both env flags w hrej hboth, if_pos hboth]
    · by_cases hl : flags.inputList ≠ ""
      · rw [main_of_batch env flags w hrej hboth hl, if_neg hboth, if_pos hl]
      · rw [main_of_single env flags w hrej hboth hl, if_neg hboth, if_neg hl]

/-- Witness for C7, amended: -card alone, then -card and -vu together. -/
theorem main_cardVu_check_witness :
    Event.logFatal "either card or vu must be set" ∉
      (main demoEnv ⟨true, false, "a.ddd", "", "", false⟩ demoWorld).trace ∧
    (main demoEnv ⟨true, true, "a.ddd", "", "", false⟩ demoWorld).trace =
      [startupLog demoEnv, .logFatal "either card or vu must be set"] :=
  ⟨((main_cardVu_check demoEnv ⟨true, false, "a.ddd", "", "", false⟩ demoWorld).2.2 rfl).1,
   ((main_cardVu_check demoEnv ⟨true, true, "a.ddd", "", "", false⟩ demoWorld).2.1.mpr rfl).1⟩

/-- C8: under a flag configuration that passes the card/vu check, main ends in
a fatal error before any file, standard input or standard output is touched if
and only if -input-list and -input are both non-empty; the fatal error is then
"input-list and input are mutually exclusive". Otherwise main runs batch
processing exactly when -input-list is non-empty, and single-file processing
exactly when it is empty. -/
theorem main_input_exclusive (env : Env Card Vu W) (flags : Flags) (w : W)
    (hpass : cardVuRejected flags = false) :
    (((main env flags w).exited = true ∧ (main env flags w).trace.filter isFileOp = []) ↔
      (flags.inputList ≠ "" ∧ flags.input ≠ "")) ∧
    ((flags.inputList ≠ "" ∧ flags.input ≠ "") →
      main env flags w =
        ⟨[startupLog env, .logFatal "input-list and input are mutually exclusive"], w, true⟩) ∧
    (¬ (flags.inputList ≠ "" ∧ flags.input ≠ "") →
      (main env flags w = afterStartup env (processBatch env flags w) ↔
        flags.inputList ≠ "") ∧
      (main env flags w = afterStartup env (processSingle env flags w) ↔
        flags.inputList = "")) := by
  obtain ⟨tb, htb⟩ := processBatch_trace_head env flags w
  obtain ⟨ts, hts⟩ := processSingle_trace_head env flags w
  have hrd := singleRead_event env flags w
  have hdiff : afterStartup env (processBatch env flags w) ≠
      afterStartup env (processSingle env flags w) := by
    intro h
    have h2 := congrArg Run.trace h
    simp only [afterStartup, htb, hts] at h2
    rcases hrd with h3 | h3 <;> rw [h3] at h2 <;> simp at h2
  refine ⟨?_, main_of_both env flags w hpass, ?_⟩
  · constructor
    · intro h
      by_contra hb
      have h2 := h.2
      by_cases hl : flags.inputList ≠ ""
      · rw [main_of_batch env flags w hpass hb hl] at h2
        simp [afterStartup, htb, List.filter_cons, isFileOp, startupLog] at h2
      · rw [main_of_single env flags w hpass hb hl] at h2
        rcases hrd with h3 | h3 <;>
          simp [afterStartup, hts, h3, List.filter_cons, isFileOp, startupLog] at h2
    · intro hb
      rw [main_of_both env flags w hpass hb]
      simp [List.filter_cons, isFileOp, startupLog]
  · intro hb
    by_cases hl : flags.inputList ≠ ""
    · have hm := main_of_batch env flags w hpass hb hl
      refine ⟨⟨fun _ => hl, fun _ => hm⟩, ⟨fun h => ?_, fun h => absurd h hl⟩⟩
      exact absurd (hm.symm.trans h) hdiff
    · have hm := main_of_single env flags w hpass hb hl
      have hl2 : flags.inputList = "" := by simpa using hl
      refine ⟨⟨fun h => ?_, fun h => absurd h hl⟩, ⟨fun _ => hl2, fun _ => hm⟩⟩
      exact absurd (h.symm.trans hm) hdiff

/-- Witness for C8: -card with both -input and -input-list set. -/
theorem main_input_exclusive_witness :
    main demoEnv ⟨true, false, "a.ddd", "", "list.txt", false⟩ demoWorld =
      ⟨[startupLog demoEnv, .logFatal "input-list and input are mutually exclusive"],
        demoWorld, true⟩ :=
  (main_input_exclusive demoEnv ⟨true, false, "a.ddd", "", "list.txt", false⟩ demoWorld
    rfl).2.1 ⟨by decide, by decide⟩

end Tachoparser
